import Mathlib

/-! Verification of the proposal-tracker sync pipeline.

Shallow embedding of the data-processing core of the proposal tracker:

* `scripts/csvService.js` — CSV writing (`arrayToCsv`, `updateCsv`) and
  reading (`readCsv`);
* `scripts/sync-projects.js` — the reconciliation pipeline
  (`calculateMonthlyBudget`, `processWalletTransactions`,
  `fetchMilestoneData` post-processing, `processProject` milestone
  synthesis, `fetchWalletBalance`, `fetchAdaExchangeRate`, the global
  rollup and the `main` accumulation loop).

JavaScript strings are modelled as `List Char` (`JsString`); JavaScript
numbers as `ℚ` (NaN/undefined arithmetic is outside the model — every
modelled numeric field carries an actual number, with JS `||`-style
falsiness made explicit where the code relies on it); nullable values as
`Option`; thrown exceptions as `Except`/`Option` results.
-/

namespace ProposalTracker

/-! ## CSV service (`scripts/csvService.js`) -/

/-- JavaScript strings, modelled as their character lists. -/
abbrev JsString := List Char

/-- JS `String.prototype.split` with a single-character separator:
`"".split(c) = [""]`, separators at either end produce empty fields. -/
def splitOnChar (c : Char) : JsString → List JsString
  | [] => [[]]
  | x :: xs =>
    match splitOnChar c xs with
    | [] => [[]]
    | r :: rs => if x = c then [] :: r :: rs else (x :: r) :: rs

/-- JS `Array.prototype.join` with a single-character separator. -/
def joinChar (c : Char) : List JsString → JsString
  | [] => []
  | [p] => p
  | p :: ps => p ++ c :: joinChar c ps

/-- Line 51, `cellStr.replace` of every double quote by two. -/
def escapeQuotes : JsString → JsString
  | [] => []
  | x :: xs => if x = '"' then '"' :: '"' :: escapeQuotes xs else x :: escapeQuotes xs

/-- One cell of `CsvService.arrayToCsv` (lines 42-54): cells containing a
comma, a double quote or a newline are quote-wrapped with inner quotes
doubled; other cells pass through unchanged. -/
def escapeCell (s : JsString) : JsString :=
  if ',' ∈ s ∨ '"' ∈ s ∨ '\n' ∈ s
  then '"' :: (escapeQuotes s ++ ['"'])
  else s

/-- Lines 44-46 of `csvService.js`: `null`/`undefined` cells become the
empty string; every other cell has already been stringified. -/
def cellToString : Option JsString → JsString
  | none => []
  | some s => s

/-- Function `CsvService.arrayToCsv` (lines 40-57): escape each cell, join cells
with `','`, join rows with `'\n'`. -/
def arrayToCsv (data : List (List (Option JsString))) : JsString :=
  joinChar '\n' (data.map fun row => joinChar ',' (row.map fun cell => escapeCell (cellToString cell)))

/-- The file content produced by `CsvService.updateCsv` (lines 67-90):
the header row, when given, is prepended to the value rows. -/
def updateCsvContent (values : List (List (Option JsString)))
    (headers : Option (List JsString)) : JsString :=
  match headers with
  | some h => arrayToCsv ((h.map some) :: values)
  | none => arrayToCsv values

/-- Function `CsvService.readCsv`, parsing step (line 111): split the file on `'\n'`,
then split every row on `','` — no un-escaping of quoted cells. -/
def readCsvContent (content : JsString) : List (List JsString) :=
  (splitOnChar '\n' content).map fun row => splitOnChar ',' row

/-- A cell string that triggers none of `arrayToCsv`'s escaping and does
not collide with either separator. -/
def cleanJs (s : JsString) : Prop := ',' ∉ s ∧ '"' ∉ s ∧ '\n' ∉ s

instance (s : JsString) : Decidable (cleanJs s) := by
  unfold cleanJs; infer_instance

theorem escapeCell_of_clean {s : JsString} (h : cleanJs s) : escapeCell s = s := by
  unfold escapeCell
  rw [if_neg]
  rintro (hc | hc | hc)
  · exact h.1 hc
  · exact h.2.1 hc
  · exact h.2.2 hc

theorem splitOnChar_of_not_mem {c : Char} : ∀ {p : JsString}, c ∉ p →
    splitOnChar c p = [p] := by
  intro p
  induction p with
  | nil => intro _; rfl
  | cons x xs ih =>
    intro h
    have hx : x ≠ c := fun hxc => h (hxc ▸ List.mem_cons_self x xs)
    have hxs : c ∉ xs := fun hm => h (List.mem_cons_of_mem x hm)
    simp only [splitOnChar, ih hxs, if_neg hx]

theorem splitOnChar_append_sep {c : Char} : ∀ {p : JsString} (rest : JsString), c ∉ p →
    splitOnChar c (p ++ c :: rest) = p :: splitOnChar c rest := by
  intro p
  induction p with
  | nil =>
    intro rest _
    simp only [List.nil_append, splitOnChar]
    cases h : splitOnChar c rest with
    | nil => simp [h]
    | cons r rs => simp [h]
  | cons x xs ih =>
    intro rest h
    have hx : x ≠ c := fun hxc => h (hxc ▸ List.mem_cons_self x xs)
    have hxs : c ∉ xs := fun hm => h (List.mem_cons_of_mem x hm)
    have := ih rest hxs
    simp only [List.cons_append, splitOnChar, List.append_eq, this, if_neg hx]

/-- Splitting undoes joining when the separator occurs in no part and the
list of parts is nonempty. -/
theorem splitOnChar_joinChar {c : Char} : ∀ {parts : List JsString}, parts ≠ [] →
    (∀ p ∈ parts, c ∉ p) → splitOnChar c (joinChar c parts) = parts := by
  intro parts
  induction parts with
  | nil => intro h; exact absurd rfl h
  | cons p ps ih =>
    intro _ hall
    cases ps with
    | nil =>
      simpa [joinChar] using splitOnChar_of_not_mem (hall p (List.mem_cons_self p []))
    | cons q qs =>
      have hp : c ∉ p := hall p (List.mem_cons_self _ _)
      have hrest : ∀ r ∈ q :: qs, c ∉ r := fun r hr => hall r (List.mem_cons_of_mem _ hr)
      have hjoin : joinChar c (p :: q :: qs) = p ++ c :: joinChar c (q :: qs) := rfl
      rw [hjoin, splitOnChar_append_sep _ hp, ih (by simp) hrest]

theorem not_mem_joinChar {c' c : Char} (hne : c' ≠ c) :
    ∀ {parts : List JsString}, (∀ p ∈ parts, c' ∉ p) → c' ∉ joinChar c parts := by
  intro parts
  induction parts with
  | nil => intro _ h; exact absurd h (List.not_mem_nil c')
  | cons p ps ih =>
    intro hall
    cases ps with
    | nil => simpa [joinChar] using hall p (List.mem_cons_self p [])
    | cons q qs =>
      have hjoin : joinChar c (p :: q :: qs) = p ++ c :: joinChar c (q :: qs) := rfl
      rw [hjoin]
      intro hmem
      rcases List.mem_append.1 hmem with hmem | hmem
      · exact hall p (List.mem_cons_self _ _) hmem
      · rcases List.mem_cons.1 hmem with hmem | hmem
        · exact hne hmem
        · exact ih (fun r hr => hall r (List.mem_cons_of_mem _ hr)) hmem

/-- The core of the round trip: reading back `arrayToCsv` output recovers
the stringified table, provided the table is nonempty, every row has at
least one cell, and no cell string contains `','`, `'"'` or `'\n'`. -/
theorem arrayToCsv_readCsv (data : List (List (Option JsString)))
    (hd : data ≠ [])
    (hr : ∀ r ∈ data, r ≠ [])
    (hc : ∀ r ∈ data, ∀ c ∈ r, cleanJs (cellToString c)) :
    readCsvContent (arrayToCsv data) = data.map (fun r => r.map cellToString) := by
  unfold readCsvContent arrayToCsv
  have hesc : data.map (fun row => joinChar ',' (row.map fun cell => escapeCell (cellToString cell)))
      = data.map (fun row => joinChar ',' (row.map cellToString)) := by
    apply List.map_congr_left
    intro r hrmem
    congr 1
    apply List.map_congr_left
    intro c hcmem
    exact escapeCell_of_clean (hc r hrmem c hcmem)
  rw [hesc, splitOnChar_joinChar (by simpa using hd) ?hnl]
  case hnl =>
    intro p hp
    rcases List.mem_map.1 hp with ⟨r, hrmem, rfl⟩
    apply not_mem_joinChar (by decide)
    intro q hq
    rcases List.mem_map.1 hq with ⟨c, hcmem, rfl⟩
    exact (hc r hrmem c hcmem).2.2
  rw [List.map_map]
  apply List.map_congr_left
  intro r hrmem
  show splitOnChar ',' (joinChar ',' (r.map cellToString)) = r.map cellToString
  apply splitOnChar_joinChar (by simpa using hr r hrmem)
  intro p hp
  rcases List.mem_map.1 hp with ⟨c, hcmem, rfl⟩
  exact (hc r hrmem c hcmem).1

/-- C1, counterexample: the round trip fails as soon as one cell contains
an embedded comma. Writing the one-column table with header `"h"` and the
single data cell `"a,b"` and reading the file back does not return the
header row followed by the row `["a,b"]` — the naive comma split of
`readCsv` cuts the quoted cell in two. -/
theorem claim_C1_counterexample :
    ¬ readCsvContent (updateCsvContent [[some ['a', ',', 'b']]] (some [['h']])) =
        [[['h']], [['a', ',', 'b']]] := by decide

/-- C1 (amended): writing a table via `updateCsv` with a header row and
reading it back via `readCsv` yields the header plus the data rows with
identical cell strings, provided every row is nonempty and no cell string
contains an embedded comma, double quote, or newline; with such embedded
characters the escaping of `arrayToCsv` is not undone by `readCsv`'s
naive split and the round trip fails. -/
theorem claim_C1_roundtrip_clean (headers : List JsString)
    (values : List (List (Option JsString)))
    (hh : headers ≠ [])
    (hch : ∀ s ∈ headers, cleanJs s)
    (hrow : ∀ r ∈ values, r ≠ [])
    (hcell : ∀ r ∈ values, ∀ c ∈ r, cleanJs (cellToString c)) :
    readCsvContent (updateCsvContent values (some headers)) =
      headers :: values.map (fun r => r.map cellToString) := by
  unfold updateCsvContent
  rw [arrayToCsv_readCsv]
  · simp only [List.map_cons, List.map_map]
    congr 1
    rw [show cellToString ∘ some = id from rfl, List.map_id]
  · simp
  · intro r hrmem
    rcases List.mem_cons.1 hrmem with rfl | hrmem
    · simpa using hh
    · exact hrow r hrmem
  · intro r hrmem c hcmem
    rcases List.mem_cons.1 hrmem with rfl | hrmem
    · rcases List.mem_map.1 hcmem with ⟨s, hsmem, rfl⟩
      exact hch s hsmem
    · exact hcell r hrmem c hcmem

/-- C1 witness: a concrete clean two-column table round-trips. -/
theorem claim_C1_witness :
    readCsvContent (updateCsvContent [[some ['x'], some ['y']], [some ['z'], none]]
        (some [['h'], ['i']])) =
      [['h'], ['i']] :: [[['x'], ['y']], [['z'], []]] :=
  claim_C1_roundtrip_clean [['h'], ['i']] [[some ['x'], some ['y']], [some ['z'], none]]
    (by decide) (by decide) (by decide) (by decide)

/-! ## Monthly-budget computation (`calculateMonthlyBudget`, `sync-projects.js` lines 193-247)

Dates are modelled at the year/month granularity used by the duration
computation (`getFullYear`/`getMonth`; months 0-based as in JS). The
day-of-month never enters the month arithmetic. -/

structure DateYM where
  year : Int
  month : Int
deriving DecidableEq

/-- Field `projectConfig.dateRanges`; `dend` models the JS field `end`
(a Lean keyword). -/
structure DateRanges where
  start : Option DateYM
  dend : Option DateYM
deriving DecidableEq

/-- A configured collaborator: `'amount' in collaborator` (new fixed-amount
format) and `'allocation' in collaborator` (legacy fractional format) are
modelled as presence of the corresponding `Option` field. -/
structure Collaborator where
  name : String
  amount : Option ℚ
  allocation : Option ℚ
deriving DecidableEq

structure ProjectConfig where
  project_id : String
  wallet : String
  dateRanges : Option DateRanges
  collaborators : Option (List Collaborator)
deriving DecidableEq

/-- Proposal fields used by the pipeline (`getProposalDetails` columns). -/
structure Proposal where
  title : String
  budget : ℚ
  milestones_qty : ℕ
  funds_distributed : Option ℚ
  project_id : String
deriving DecidableEq

/-- One element of `collaboratorAllocations` (lines 216-230). -/
structure CollabAlloc where
  name : String
  totalAmount : ℚ
  monthlyAmount : ℚ
  allocation : ℚ
deriving DecidableEq

/-- The record returned by `calculateMonthlyBudget` (lines 238-246), with
the dates kept as year/month pairs instead of ISO strings. -/
structure Financials where
  totalBudget : ℚ
  monthlyBudget : ℚ
  months : Int
  startDate : DateYM
  endDate : DateYM
  collaboratorAllocations : List CollabAlloc
  organizationFunds : ℚ
deriving DecidableEq

/-- Lines 195-197: configured start date, else the current date. -/
def resolveStartDate (config : ProjectConfig) (today : DateYM) : DateYM :=
  (config.dateRanges.bind DateRanges.start).getD today

/-- Lines 199-201: configured end date, else start plus one year. -/
def resolveEndDate (config : ProjectConfig) (today : DateYM) : DateYM :=
  match config.dateRanges.bind DateRanges.dend with
  | some e => e
  | none => ⟨(resolveStartDate config today).year + 1, (resolveStartDate config today).month⟩

/-- Lines 203-204: whole-month difference by year/month arithmetic. -/
def monthsBetween (s e : DateYM) : Int :=
  (e.year - s.year) * 12 + (e.month - s.month)

/-- Line 208: `months > 0 ? totalBudget / months : totalBudget`. -/
def monthlyBudgetOf (totalBudget : ℚ) (months : Int) : ℚ :=
  if months > 0 then totalBudget / (months : ℚ) else totalBudget

/-- One step of the collaborator `map` (lines 211-232). A collaborator
with neither an `amount` nor an `allocation` key falls off the end of the
if/else chain, so the JS map yields `undefined` — modelled as `none`. -/
def mkCollabAlloc (totalBudget monthlyBudget : ℚ) (months : Int)
    (c : Collaborator) : Option CollabAlloc :=
  match c.amount with
  | some a =>
    some { name := c.name
           totalAmount := a
           monthlyAmount := if months > 0 then a / (months : ℚ) else a
           allocation := if totalBudget > 0 then a / totalBudget else 0 }
  | none =>
    match c.allocation with
    | some f =>
      some { name := c.name
             allocation := f
             monthlyAmount := monthlyBudget * f
             totalAmount := totalBudget * f }
    | none => none

/-- The collaborator `map` over the whole list. `none` records that some
entry came out `undefined`; the `reduce` on line 235 then throws on
reading `totalAmount` of that entry, so the surrounding call fails. -/
def mapCollabAllocs (totalBudget monthlyBudget : ℚ) (months : Int) :
    List Collaborator → Option (List CollabAlloc)
  | [] => some []
  | c :: cs =>
    match mkCollabAlloc totalBudget monthlyBudget months c with
    | none => none
    | some a =>
      match mapCollabAllocs totalBudget monthlyBudget months cs with
      | none => none
      | some rest => some (a :: rest)

/-- Function `calculateMonthlyBudget(proposal, projectConfig)` (lines 193-247).
`today` stands for `new Date()` in the missing-start default.
`proposal.budget || 0` is the identity on every actual number (`0 → 0`),
so `totalBudget` is `proposal.budget` directly. The result is `none`
exactly when the collaborator `reduce` would throw (see
`mapCollabAllocs`). -/
def calculateMonthlyBudget (proposal : Proposal) (config : ProjectConfig)
    (today : DateYM) : Option Financials :=
  (mapCollabAllocs proposal.budget
      (monthlyBudgetOf proposal.budget
        (monthsBetween (resolveStartDate config today) (resolveEndDate config today)))
      (monthsBetween (resolveStartDate config today) (resolveEndDate config today))
      (config.collaborators.getD [])).map fun allocs =>
    { totalBudget := proposal.budget
      monthlyBudget := monthlyBudgetOf proposal.budget
        (monthsBetween (resolveStartDate config today) (resolveEndDate config today))
      months := monthsBetween (resolveStartDate config today) (resolveEndDate config today)
      startDate := resolveStartDate config today
      endDate := resolveEndDate config today
      collaboratorAllocations := allocs
      organizationFunds := proposal.budget - allocs.foldl (fun s a => s + a.totalAmount) 0 }

/-- The JS money `reduce`s (`(sum, x) => sum + f(x)` from `0`) compute the
sum of the mapped values. -/
theorem foldl_add_map {α : Type} (f : α → ℚ) : ∀ (l : List α) (init : ℚ),
    l.foldl (fun s a => s + f a) init = init + (l.map f).sum := by
  intro l
  induction l with
  | nil => intro init; simp
  | cons a as ih =>
    intro init
    simp only [List.foldl_cons, ih, List.map_cons, List.sum_cons]
    ring

/-- Concrete scenario from the spec: budget 120,000, 12-month duration,
one collaborator with fixed amount 24,000. -/
def scenarioProposal : Proposal :=
  { title := "P1", budget := 120000, milestones_qty := 4
    funds_distributed := none, project_id := "1000001" }

def scenarioConfig : ProjectConfig :=
  { project_id := "1000001", wallet := "addr1"
    dateRanges := some ⟨some ⟨2024, 0⟩, some ⟨2025, 0⟩⟩
    collaborators := some [⟨"Alice", some 24000, none⟩] }

/-- A config whose project runs zero months (start = end). -/
def zeroMonthConfig : ProjectConfig :=
  { project_id := "1000002", wallet := "addr2"
    dateRanges := some ⟨some ⟨2024, 5⟩, some ⟨2024, 5⟩⟩
    collaborators := none }

/-- C3: for every successfully computed `Financials`, the duration is the
whole-month year/month difference of the resolved start/end dates (with
the end date defaulting to start plus one year when absent), and
`monthlyBudget` is `budget / months` when `months > 0` and exactly
`totalBudget` when `months ≤ 0`. -/
theorem claim_C3_duration_monthly_budget (proposal : Proposal)
    (config : ProjectConfig) (today : DateYM) (fin : Financials)
    (h : calculateMonthlyBudget proposal config today = some fin) :
    fin.months = monthsBetween (resolveStartDate config today) (resolveEndDate config today)
    ∧ (config.dateRanges.bind DateRanges.dend = none →
        resolveEndDate config today =
          ⟨(resolveStartDate config today).year + 1, (resolveStartDate config today).month⟩)
    ∧ fin.totalBudget = proposal.budget
    ∧ (fin.months > 0 → fin.monthlyBudget = fin.totalBudget / (fin.months : ℚ))
    ∧ (fin.months ≤ 0 → fin.monthlyBudget = fin.totalBudget) := by
  obtain ⟨allocs, hm, rfl⟩ := Option.map_eq_some'.1 h
  refine ⟨rfl, ?_, rfl, ?_, ?_⟩
  · intro hnone
    simp [resolveEndDate, hnone]
  · intro hpos
    show monthlyBudgetOf _ _ = _
    unfold monthlyBudgetOf
    rw [if_pos hpos]
  · intro hle
    show monthlyBudgetOf _ _ = _
    unfold monthlyBudgetOf
    rw [if_neg (not_lt.2 hle)]

/-- C3 witness: for the zero-duration project the computed monthly budget
coincides with the total budget. -/
theorem claim_C3_witness :
    (calculateMonthlyBudget scenarioProposal zeroMonthConfig ⟨2024, 0⟩).map Financials.monthlyBudget
      = (calculateMonthlyBudget scenarioProposal zeroMonthConfig ⟨2024, 0⟩).map Financials.totalBudget := by
  have h := claim_C3_duration_monthly_budget scenarioProposal zeroMonthConfig ⟨2024, 0⟩ _ rfl
  have hmb := h.2.2.2.2 (by decide)
  show Option.map _ (some _) = Option.map _ (some _)
  simp only [Option.map_some']
  exact congrArg some hmb

/-- C4: whenever `calculateMonthlyBudget` succeeds and every collaborator
carries an explicit fixed amount, the collaborator totals plus the
organization residual reconcile exactly to the total budget (exact in ℚ,
hence within floating-point tolerance); and on the concrete scenario
(budget 120,000, 12 months, one fixed amount 24,000) the results are
monthlyBudget 10,000, collaborator monthlyAmount 2,000,
allocation fraction 1/5 = 0.2, and organizationFunds 96,000. -/
theorem claim_C4_collaborator_reconciliation :
    (∀ (proposal : Proposal) (config : ProjectConfig) (today : DateYM) (fin : Financials),
        calculateMonthlyBudget proposal config today = some fin →
        (∀ c ∈ config.collaborators.getD [], c.amount.isSome) →
        (fin.collaboratorAllocations.map CollabAlloc.totalAmount).sum + fin.organizationFunds
          = fin.totalBudget)
    ∧ calculateMonthlyBudget scenarioProposal scenarioConfig ⟨2024, 0⟩
      = some { totalBudget := 120000, monthlyBudget := 10000, months := 12
               startDate := ⟨2024, 0⟩, endDate := ⟨2025, 0⟩
               collaboratorAllocations := [⟨"Alice", 24000, 2000, 1/5⟩]
               organizationFunds := 96000 } := by
  constructor
  · intro proposal config today fin h _hamt
    obtain ⟨allocs, hm, rfl⟩ := Option.map_eq_some'.1 h
    show (allocs.map CollabAlloc.totalAmount).sum + (proposal.budget - _) = proposal.budget
    rw [foldl_add_map CollabAlloc.totalAmount]
    ring
  · norm_num [calculateMonthlyBudget, mapCollabAllocs, mkCollabAlloc, monthlyBudgetOf,
      resolveStartDate, resolveEndDate, monthsBetween, scenarioProposal, scenarioConfig]

/-- C4 witness: the reconciliation identity instantiated on the concrete
scenario, with the hypotheses discharged there. -/
theorem claim_C4_witness :
    (([⟨"Alice", 24000, 2000, 1/5⟩] : List CollabAlloc).map CollabAlloc.totalAmount).sum
        + 96000 = (120000 : ℚ) := by
  have h := claim_C4_collaborator_reconciliation.1 scenarioProposal scenarioConfig ⟨2024, 0⟩ _
    claim_C4_collaborator_reconciliation.2 (by decide)
  exact h

theorem mkCollabAlloc_isSome (totalBudget monthlyBudget : ℚ) (months : Int)
    (c : Collaborator) (h : c.amount.isSome ∨ c.allocation.isSome) :
    (mkCollabAlloc totalBudget monthlyBudget months c).isSome := by
  unfold mkCollabAlloc
  cases ha : c.amount with
  | some a => simp
  | none =>
    cases hf : c.allocation with
    | some f => simp
    | none =>
      rw [ha, hf] at h
      simp at h

theorem mapCollabAllocs_isSome (totalBudget monthlyBudget : ℚ) (months : Int) :
    ∀ (l : List Collaborator), (∀ c ∈ l, c.amount.isSome ∨ c.allocation.isSome) →
      (mapCollabAllocs totalBudget monthlyBudget months l).isSome := by
  intro l
  induction l with
  | nil => intro _; simp [mapCollabAllocs]
  | cons c cs ih =>
    intro h
    have hc := mkCollabAlloc_isSome totalBudget monthlyBudget months c
      (h c (List.mem_cons_self _ _))
    have hcs := ih (fun d hd => h d (List.mem_cons_of_mem _ hd))
    unfold mapCollabAllocs
    obtain ⟨a, ha⟩ := Option.isSome_iff_exists.1 hc
    obtain ⟨rest, hrest⟩ := Option.isSome_iff_exists.1 hcs
    rw [ha, hrest]
    simp

/-- C10: `calculateMonthlyBudget` succeeds for every configuration in
which each collaborator entry carries a fixed `amount` or an `allocation`
fraction; with a collaborator carrying neither, the collaborator map
yields an undefined entry and the organization-funds reduction fails
(modelled as `none`), so the precondition is required for totality. -/
theorem claim_C10_collaborator_totality :
    (∀ (proposal : Proposal) (config : ProjectConfig) (today : DateYM),
        (∀ c ∈ config.collaborators.getD [], c.amount.isSome ∨ c.allocation.isSome) →
        (calculateMonthlyBudget proposal config today).isSome = true)
    ∧ calculateMonthlyBudget scenarioProposal
        { project_id := "1000001", wallet := "addr1", dateRanges := none
          collaborators := some [{ name := "x", amount := none, allocation := none }] }
        ⟨2024, 0⟩ = none := by
  constructor
  · intro proposal config today h
    unfold calculateMonthlyBudget
    have := mapCollabAllocs_isSome proposal.budget
      (monthlyBudgetOf proposal.budget
        (monthsBetween (resolveStartDate config today) (resolveEndDate config today)))
      (monthsBetween (resolveStartDate config today) (resolveEndDate config today))
      (config.collaborators.getD []) h
    obtain ⟨allocs, ha⟩ := Option.isSome_iff_exists.1 this
    rw [ha]
    simp
  · rfl

/-- C10 witness: totality holds on the concrete well-formed scenario. -/
theorem claim_C10_witness :
    (calculateMonthlyBudget scenarioProposal scenarioConfig ⟨2024, 0⟩).isSome = true :=
  claim_C10_collaborator_totality.1 scenarioProposal scenarioConfig ⟨2024, 0⟩ (by decide)

/-! ## Wallet transactions (`processWalletTransactions`, lines 252-276) -/

structure PaymentAddr where
  bech32 : String
deriving DecidableEq

/-- One transaction output: a possibly-missing payment address and the
already-parsed numeric value (`parseFloat(output.value)`). -/
structure TxOutput where
  payment_addr : Option PaymentAddr
  value : ℚ
deriving DecidableEq

/-- A raw indexer transaction. `msg674` models `tx?.metadata?.[674]?.msg`
when it is an array of strings; any other shape makes the metadata string
empty, like the `Array.isArray` guard. The `tx_timestamp`-to-ISO-date
rendering is pure formatting and is not modelled. -/
structure RawTx where
  tx_hash : String
  tx_timestamp : Int
  outputs : Option (List TxOutput)
  msg674 : Option (List String)
deriving DecidableEq

/-- The record built for each transaction (lines 269-274). `date` keeps
the raw UNIX timestamp: the `toISOString().split('T')[0]` rendering is
injective day-level formatting and is not modelled beyond it. -/
structure ProcessedTx where
  txHash : String
  date : Int
  amount : ℚ
  metadata : String
deriving DecidableEq

/-- Line 262: `output.payment_addr && output.payment_addr.bech32 === wallet`. -/
def matchesWallet (wallet : String) (o : TxOutput) : Bool :=
  match o.payment_addr with
  | some pa => pa.bech32 == wallet
  | none => false

/-- Lines 261-263: sum of `value / 1000000` over the outputs whose
address matches the tracked wallet. -/
def receivedAmount (wallet : String) (tx : RawTx) : ℚ :=
  ((tx.outputs.getD []).filter (matchesWallet wallet)).foldl
    (fun s o => s + o.value / 1000000) 0

/-- Function `processWalletTransactions` (lines 259-275) on already-fetched
transactions. -/
def processWalletTransactions (wallet : String) (txs : List RawTx) : List ProcessedTx :=
  txs.map fun tx =>
    { txHash := tx.tx_hash
      date := tx.tx_timestamp
      amount := receivedAmount wallet tx
      metadata := String.intercalate " " (tx.msg674.getD []) }

/-- Line 360: `transactions.reduce((sum, tx) => sum + tx.amount, 0)`. -/
def totalReceived (txs : List ProcessedTx) : ℚ :=
  txs.foldl (fun s tx => s + tx.amount) 0

/-- Line 363: `proposal.budget - totalReceived` — not clamped. -/
def remainingFunds (budget : ℚ) (txs : List ProcessedTx) : ℚ :=
  budget - totalReceived txs

/-- C5: each processed transaction's `amount` is the sum over matching
outputs of `value / 1,000,000`; the total received is the sum of the
per-transaction amounts; the remaining funds are `budget − total`
(unclamped, so negative whenever the total exceeds the budget); and with
no matching outputs anywhere the total is 0 and the remaining funds equal
the budget. -/
theorem claim_C5_received_amounts (wallet : String) (txs : List RawTx) (budget : ℚ) :
    ((processWalletTransactions wallet txs).map ProcessedTx.amount
      = txs.map fun tx =>
          (((tx.outputs.getD []).filter (matchesWallet wallet)).map
            (fun o => o.value / 1000000)).sum)
    ∧ totalReceived (processWalletTransactions wallet txs)
      = ((processWalletTransactions wallet txs).map ProcessedTx.amount).sum
    ∧ remainingFunds budget (processWalletTransactions wallet txs)
      = budget - ((processWalletTransactions wallet txs).map ProcessedTx.amount).sum
    ∧ ((∀ tx ∈ txs, (tx.outputs.getD []).filter (matchesWallet wallet) = []) →
        totalReceived (processWalletTransactions wallet txs) = 0
        ∧ remainingFunds budget (processWalletTransactions wallet txs) = budget) := by
  have hamt : (processWalletTransactions wallet txs).map ProcessedTx.amount
      = txs.map fun tx =>
          (((tx.outputs.getD []).filter (matchesWallet wallet)).map
            (fun o => o.value / 1000000)).sum := by
    unfold processWalletTransactions
    rw [List.map_map]
    apply List.map_congr_left
    intro tx _
    show receivedAmount wallet tx = _
    unfold receivedAmount
    rw [foldl_add_map (fun (o : TxOutput) => o.value / 1000000)]
    simp
  have htot : totalReceived (processWalletTransactions wallet txs)
      = ((processWalletTransactions wallet txs).map ProcessedTx.amount).sum := by
    unfold totalReceived
    rw [foldl_add_map ProcessedTx.amount]
    simp
  refine ⟨hamt, htot, ?_, ?_⟩
  · unfold remainingFunds
    rw [htot]
  · intro hnone
    have hz : ((processWalletTransactions wallet txs).map ProcessedTx.amount).sum = 0 := by
      rw [hamt]
      apply List.sum_eq_zero
      intro x hx
      rcases List.mem_map.1 hx with ⟨tx, htx, rfl⟩
      rw [hnone tx htx]
      simp
    constructor
    · rw [htot, hz]
    · unfold remainingFunds
      rw [htot, hz, sub_zero]

/-- C5 witness: a wallet with no matching outputs receives 0 and keeps
the full budget as remaining funds. -/
theorem claim_C5_witness :
    totalReceived (processWalletTransactions "w"
        [{ tx_hash := "t1", tx_timestamp := 0, outputs := some [⟨some ⟨"other"⟩, 7⟩], msg674 := none }]) = 0
    ∧ remainingFunds 500 (processWalletTransactions "w"
        [{ tx_hash := "t1", tx_timestamp := 0, outputs := some [⟨some ⟨"other"⟩, 7⟩], msg674 := none }]) = 500 :=
  (claim_C5_received_amounts "w"
      [{ tx_hash := "t1", tx_timestamp := 0, outputs := some [⟨some ⟨"other"⟩, 7⟩], msg674 := none }] 500).2.2.2
    (by decide)

/-! ## Wallet balance (`fetchWalletBalance`, lines 16-34) -/

/-- A JS field value as far as `typeof x === 'number'` can see it. -/
inductive JsField where
  | num (x : ℚ)
  | nonNum
deriving DecidableEq

/-- The pool.pm response body; `lovelaces` may be absent or non-numeric. -/
structure PoolPmData where
  lovelaces : Option JsField
deriving DecidableEq

/-- Function `fetchWalletBalance` (lines 16-34): a total function of the address
and the (possibly failed, possibly falsy-bodied) HTTP response — every
abnormal case returns 0 instead of throwing. -/
def fetchWalletBalance (walletAddress : String)
    (response : Except Unit (Option PoolPmData)) : ℚ :=
  if walletAddress = "" then 0
  else
    match response with
    | .error _ => 0
    | .ok none => 0
    | .ok (some d) =>
      match d.lovelaces with
      | some (.num x) => x / 1000000
      | _ => 0

/-- C9: `fetchWalletBalance` never throws — it is total on every address
and response, returning `lovelaces / 1,000,000` exactly when the address
is nonempty and the response carries a numeric `lovelaces`, and 0 when
the address is missing/empty, the request failed, or the body lacks a
numeric `lovelaces` field. -/
theorem claim_C9_wallet_balance_total (walletAddress : String)
    (response : Except Unit (Option PoolPmData)) :
    (∀ d x, walletAddress ≠ "" → response = .ok (some d) →
        d.lovelaces = some (.num x) →
        fetchWalletBalance walletAddress response = x / 1000000)
    ∧ (walletAddress = "" → fetchWalletBalance walletAddress response = 0)
    ∧ ((∀ d x, response = .ok (some d) → d.lovelaces ≠ some (.num x)) →
        fetchWalletBalance walletAddress response = 0) := by
  refine ⟨?_, ?_, ?_⟩
  · intro d x hne hresp hlov
    subst hresp
    unfold fetchWalletBalance
    rw [if_neg hne]
    simp [hlov]
  · intro h
    unfold fetchWalletBalance
    rw [if_pos h]
  · intro h
    unfold fetchWalletBalance
    by_cases haddr : walletAddress = ""
    · rw [if_pos haddr]
    · rw [if_neg haddr]
      match hresp : response with
      | .error _ => rfl
      | .ok none => rfl
      | .ok (some d) =>
        match hlov : d.lovelaces with
        | none => simp [hlov]
        | some .nonNum => simp [hlov]
        | some (.num x) => exact absurd hlov (h d x rfl)

/-- C9 witness: a nonempty address with a numeric `lovelaces` body yields
the converted balance. -/
theorem claim_C9_witness :
    fetchWalletBalance "addr" (.ok (some ⟨some (.num 2500000)⟩)) = 2500000 / 1000000 :=
  (claim_C9_wallet_balance_total "addr" (.ok (some ⟨some (.num 2500000)⟩))).1
    ⟨some (.num 2500000)⟩ 2500000 (by decide) rfl rfl

/-! ## Milestone data (`fetchMilestoneData` lines 114-161, `processProject` lines 311-357) -/

structure Signoff where
  created_at : JsString
deriving DecidableEq

structure PoaReview where
  content_approved : Option Bool
  current : Bool
deriving DecidableEq

/-- One proof-of-achievement variant with its reviews and signoffs, in
the order the backend returned them. -/
structure Poa where
  poas_reviews : List PoaReview
  signoffs : List Signoff
deriving DecidableEq

structure SomReview where
  outputs_approves : Option Bool
  success_criteria_approves : Option Bool
  evidence_approves : Option Bool
  current : Bool
deriving DecidableEq

/-- One `soms` row as selected by `fetchMilestoneData`. -/
structure Som where
  month : Option ℕ
  cost : Option ℚ
  completion : Option ℚ
  som_reviews : List SomReview
  poas : List Poa
deriving DecidableEq

/-- Code-point lexicographic strict comparison, the order that
`localeCompare` realizes on the digit/dash timestamp alphabet. -/
def jsStrLt : JsString → JsString → Bool
  | [], [] => false
  | [], _ :: _ => true
  | _ :: _, [] => false
  | a :: as, b :: bs => if a < b then true else if b < a then false else jsStrLt as bs

/-- Lines 152-153: `a.signoffs?.[0]?.created_at || '0'` — the FIRST
signoff's timestamp, with both a missing signoff and an empty timestamp
(JS falsiness) replaced by the sentinel string `"0"`. -/
def poaKey (p : Poa) : JsString :=
  match p.signoffs.head? with
  | some s => if s.created_at = [] then "0".toList else s.created_at
  | none => "0".toList

/-- One comparison step of the descending sort (lines 151-155): keep the
candidate with the strictly greater key, the earlier one on ties. -/
def betterPoa (p : Poa) : Option Poa → Option Poa
  | none => some p
  | some q => if jsStrLt (poaKey p) (poaKey q) then some q else some p

/-- The head of the stable descending sort on lines 151-155: the first
element whose key is maximal. -/
def pickTopPoa : List Poa → Option Poa
  | [] => none
  | p :: ps => betterPoa p (pickTopPoa ps)

/-- Lines 150-157: when the first returned row has more than one PoA
variant, replace its `poas` with the singleton best variant. -/
def resolvePoas (data : List Som) : List Som :=
  match data with
  | [] => []
  | d :: rest =>
    if d.poas.length > 1 then
      { d with poas := (pickTopPoa d.poas).toList } :: rest
    else d :: rest

/-- Modelled from the spec's words, used only to refute the claim's
reading: the comparison key the claim describes — a variant's LATEST
(maximum) signoff timestamp, `none` (no signoff at all) standing for the
minimum. -/
def specLatestKey (p : Poa) : Option JsString :=
  p.signoffs.foldl
    (fun acc s =>
      match acc with
      | none => some s.created_at
      | some m => if jsStrLt m s.created_at then some s.created_at else some m)
    none

theorem jsStrLt_irrefl : ∀ a : JsString, jsStrLt a a = false := by
  intro a
  induction a with
  | nil => rfl
  | cons x xs ih => simp [jsStrLt, lt_irrefl, ih]

theorem jsStrLt_asymm : ∀ a b : JsString, jsStrLt a b = true → jsStrLt b a = false := by
  intro a
  induction a with
  | nil =>
    intro b h
    cases b with
    | nil => cases h
    | cons y ys => rfl
  | cons x xs ih =>
    intro b h
    cases b with
    | nil => simp [jsStrLt] at h
    | cons y ys =>
      simp only [jsStrLt] at h ⊢
      by_cases hxy : x < y
      · simp [hxy, lt_asymm hxy]
      · by_cases hyx : y < x
        · simp [hxy, hyx] at h
        · have hrec : jsStrLt xs ys = true := by simpa [hxy, hyx] using h
          simp [hxy, hyx, ih ys hrec]

theorem jsStrLt_le_trans : ∀ (a q r : JsString),
    jsStrLt a q = false → jsStrLt q r = false → jsStrLt a r = false := by
  intro a
  induction a with
  | nil =>
    intro q r h1 h2
    cases q with
    | nil =>
      cases r with
      | nil => rfl
      | cons z zs => simp [jsStrLt] at h2
    | cons y ys => simp [jsStrLt] at h1
  | cons x xs ih =>
    intro q r h1 h2
    cases r with
    | nil => rfl
    | cons z zs =>
      cases q with
      | nil => simp [jsStrLt] at h2
      | cons y ys =>
        simp only [jsStrLt] at h1 h2 ⊢
        by_cases hxy : x < y
        · simp [hxy] at h1
        · by_cases hyz : y < z
          · simp [hyz] at h2
          · by_cases hyx : y < x
            · have hzx : z < x := lt_of_le_of_lt (not_lt.1 hyz) hyx
              simp [lt_asymm hzx, hzx]
            · have hxy' : x = y := le_antisymm (not_lt.1 hyx) (not_lt.1 hxy)
              by_cases hzy : z < y
              · have hzx : z < x := hxy' ▸ hzy
                simp [lt_asymm hzx, hzx]
              · have hyz' : y = z := le_antisymm (not_lt.1 hzy) (not_lt.1 hyz)
                have h1' : jsStrLt xs ys = false := by simpa [hxy, hyx] using h1
                have h2' : jsStrLt ys zs = false := by simpa [hyz, hzy] using h2
                subst hxy'
                subst hyz'
                simp [lt_irrefl, ih ys zs h1' h2']

theorem pickTopPoa_eq_none : ∀ {l : List Poa}, pickTopPoa l = none → l = [] := by
  intro l h
  cases l with
  | nil => rfl
  | cons p ps =>
    simp only [pickTopPoa] at h
    cases hps : pickTopPoa ps with
    | none => rw [hps] at h; simp [betterPoa] at h
    | some q =>
      rw [hps] at h
      simp only [betterPoa] at h
      by_cases hgt : jsStrLt (poaKey p) (poaKey q)
      · rw [if_pos hgt] at h; cases h
      · rw [if_neg hgt] at h; cases h

/-- The head of the stable descending sort is a member of the list and no
member's key strictly exceeds its key. -/
theorem pickTopPoa_mem_max : ∀ (l : List Poa) (p : Poa), pickTopPoa l = some p →
    p ∈ l ∧ ∀ q ∈ l, jsStrLt (poaKey p) (poaKey q) = false := by
  intro l
  induction l with
  | nil => intro p hp; cases hp
  | cons a as ih =>
    intro p hp
    simp only [pickTopPoa] at hp
    cases has : pickTopPoa as with
    | none =>
      rw [has] at hp
      simp only [betterPoa] at hp
      injection hp with hp
      subst hp
      have : as = [] := pickTopPoa_eq_none has
      subst this
      refine ⟨List.mem_cons_self _ _, ?_⟩
      intro r hr
      rcases List.mem_cons.1 hr with rfl | hr
      · exact jsStrLt_irrefl _
      · cases hr
    | some q =>
      rw [has] at hp
      simp only [betterPoa] at hp
      obtain ⟨hqmem, hqmax⟩ := ih q has
      by_cases hgt : jsStrLt (poaKey a) (poaKey q)
      · rw [if_pos hgt] at hp
        injection hp with hp
        subst hp
        refine ⟨List.mem_cons_of_mem _ hqmem, ?_⟩
        intro r hr
        rcases List.mem_cons.1 hr with rfl | hr
        · exact jsStrLt_asymm _ _ hgt
        · exact hqmax r hr
      · rw [if_neg hgt] at hp
        injection hp with hp
        subst hp
        refine ⟨List.mem_cons_self _ _, ?_⟩
        intro r hr
        rcases List.mem_cons.1 hr with rfl | hr
        · exact jsStrLt_irrefl _
        · exact jsStrLt_le_trans _ _ _ (Bool.of_not_eq_true hgt) (hqmax r hr)

/-- C7 counterexample: two variants where B's LATEST signoff timestamp
("2025-01-01", the lexicographically greatest in play) strictly exceeds
A's latest ("2024-01-01"), yet the code selects A — the comparator reads
only the FIRST signoff of each variant (B's is "2023-01-01"), not the
latest, so the selection rule the claim states fails at this input. -/
theorem claim_C7_counterexample :
    pickTopPoa [⟨[], [⟨"2024-01-01".toList⟩]⟩,
        ⟨[], [⟨"2023-01-01".toList⟩, ⟨"2025-01-01".toList⟩]⟩]
      = some ⟨[], [⟨"2024-01-01".toList⟩]⟩
    ∧ specLatestKey ⟨[], [⟨"2024-01-01".toList⟩]⟩ = some "2024-01-01".toList
    ∧ specLatestKey ⟨[], [⟨"2023-01-01".toList⟩, ⟨"2025-01-01".toList⟩]⟩
        = some "2025-01-01".toList
    ∧ jsStrLt "2024-01-01".toList "2025-01-01".toList = true := by
  refine ⟨?_, ?_, ?_, ?_⟩ <;> decide

/-- C7 (amended): with multiple proof-of-achievement variants,
`fetchMilestoneData` keeps the variant whose FIRST-listed signoff
timestamp is lexicographically greatest — a variant with no first signoff
timestamp (or an empty one) being keyed by the sentinel string "0", which
orders below ISO timestamps but not below every string — and ties keep
the earliest-listed variant. -/
theorem claim_C7_first_signoff_selection (poas : List Poa) (p : Poa)
    (hlen : poas.length > 1) (hp : pickTopPoa poas = some p) :
    p ∈ poas
    ∧ (∀ q ∈ poas, jsStrLt (poaKey p) (poaKey q) = false)
    ∧ ∀ (d : Som) (rest : List Som), d.poas = poas →
        resolvePoas (d :: rest) = ({ d with poas := [p] }) :: rest := by
  obtain ⟨hmem, hmax⟩ := pickTopPoa_mem_max poas p hp
  refine ⟨hmem, hmax, ?_⟩
  intro d rest hd
  show (if d.poas.length > 1 then
      ({ d with poas := (pickTopPoa d.poas).toList }) :: rest
    else d :: rest) = _
  rw [if_pos (by rw [hd]; exact hlen)]
  rw [hd, hp]
  rfl

/-- C7 witness: on the two concrete variants of the counterexample, the
selected variant's first-signoff key is not exceeded by the other's. -/
theorem claim_C7_witness :
    jsStrLt (poaKey ⟨[], [⟨"2024-01-01".toList⟩]⟩)
      (poaKey ⟨[], [⟨"2023-01-01".toList⟩, ⟨"2025-01-01".toList⟩]⟩) = false :=
  (claim_C7_first_signoff_selection
      [⟨[], [⟨"2024-01-01".toList⟩]⟩, ⟨[], [⟨"2023-01-01".toList⟩, ⟨"2025-01-01".toList⟩]⟩]
      ⟨[], [⟨"2024-01-01".toList⟩]⟩ (by decide) (by decide)).2.1
    ⟨[], [⟨"2023-01-01".toList⟩, ⟨"2025-01-01".toList⟩]⟩ (by decide)

/-! ## Milestone synthesis (`processProject`, lines 311-357) -/

/-- One row of the `getproposalsnapshot` RPC result, as used by the
milestone loop. -/
structure Snapshot where
  milestone : ℕ
  som_signoff_count : Option ℕ
  poa_signoff_count : Option ℕ
deriving DecidableEq

/-- JS `o || d` on a possibly-missing number: `0` is falsy, so it also
falls back. -/
def jsOrNat (o : Option ℕ) (d : ℕ) : ℕ :=
  match o with
  | some n => if n = 0 then d else n
  | none => d

/-- JS `o || d` on a possibly-missing numeric value. -/
def jsOrQ (o : Option ℚ) (d : ℚ) : ℚ :=
  match o with
  | some x => if x = 0 then d else x
  | none => d

/-- JS `o || false` on a possibly-missing boolean. -/
def jsOrBool (o : Option Bool) : Bool := o.getD false

/-- Default of `NEXT_PUBLIC_MILESTONES_URL` (line 54). -/
def MILESTONES_BASE_URL : String := "https://milestones.projectcatalyst.io"

def milestonesLink (projectId : String) : String :=
  MILESTONES_BASE_URL ++ "/projects/" ++ projectId

/-- One element of `processedMilestones` (lines 316-333 / 338-355). -/
structure MilestoneEntry where
  title : String
  project_id : String
  milestone : ℕ
  month : ℕ
  cost : ℚ
  completion : ℚ
  budget : ℚ
  funds_distributed : ℚ
  milestones_qty : ℕ
  som_signoff_count : ℕ
  poa_signoff_count : ℕ
  outputs_approved : Bool
  success_criteria_approved : Bool
  evidence_approved : Bool
  poa_content_approved : Bool
  milestones_link : String
deriving DecidableEq

/-- Expression `Math.round(proposal.budget / proposal.milestones_qty)` (lines 321
and 343): `Math.round` is `⌊x + 1/2⌋`, which is Mathlib's `round`. -/
def evenCostSplit (proposal : Proposal) : ℚ :=
  ((round (proposal.budget / (proposal.milestones_qty : ℚ)) : ℤ) : ℚ)

/-- The entry pushed for one snapshot (lines 313-334), with `md` the
result of `fetchMilestoneData` for that milestone — the raw query rows
passed through the PoA selection (`resolvePoas`). -/
def entryFromSnapshot (proposal : Proposal) (projectId : String)
    (mstData : ℕ → List Som) (snap : Snapshot) : MilestoneEntry :=
  let md := resolvePoas (mstData snap.milestone)
  { title := proposal.title
    project_id := projectId
    milestone := snap.milestone
    month := jsOrNat (md.head?.bind Som.month) snap.milestone
    cost := jsOrQ (md.head?.bind Som.cost) (evenCostSplit proposal)
    completion := jsOrQ (md.head?.bind Som.completion) 0
    budget := proposal.budget
    funds_distributed := proposal.funds_distributed.getD 0
    milestones_qty := proposal.milestones_qty
    som_signoff_count := jsOrNat snap.som_signoff_count 0
    poa_signoff_count := jsOrNat snap.poa_signoff_count 0
    outputs_approved := jsOrBool
      ((md.head?.bind fun m => m.som_reviews.head?).bind SomReview.outputs_approves)
    success_criteria_approved := jsOrBool
      ((md.head?.bind fun m => m.som_reviews.head?).bind SomReview.success_criteria_approves)
    evidence_approved := jsOrBool
      ((md.head?.bind fun m => m.som_reviews.head?).bind SomReview.evidence_approves)
    poa_content_approved := jsOrBool
      (((md.head?.bind fun m => m.poas.head?).bind fun p => p.poas_reviews.head?).bind
        PoaReview.content_approved)
    milestones_link := milestonesLink projectId }

/-- The default entry synthesized for milestone index `i` when no
snapshot exists (lines 338-355). -/
def defaultMilestoneEntry (proposal : Proposal) (projectId : String) (i : ℕ) : MilestoneEntry :=
  { title := proposal.title
    project_id := projectId
    milestone := i
    month := i
    cost := evenCostSplit proposal
    completion := 0
    budget := proposal.budget
    funds_distributed := proposal.funds_distributed.getD 0
    milestones_qty := proposal.milestones_qty
    som_signoff_count := 0
    poa_signoff_count := 0
    outputs_approved := false
    success_criteria_approved := false
    evidence_approved := false
    poa_content_approved := false
    milestones_link := milestonesLink projectId }

/-- Step 5 of `processProject` (lines 311-357): one entry per snapshot
when any snapshot exists, otherwise one synthesized entry per milestone
index `1..milestones_qty`. -/
def processMilestones (proposal : Proposal) (projectId : String)
    (snapshots : List Snapshot) (mstData : ℕ → List Som) : List MilestoneEntry :=
  if snapshots.length > 0 then
    snapshots.map (entryFromSnapshot proposal projectId mstData)
  else
    (List.range proposal.milestones_qty).map
      fun i => defaultMilestoneEntry proposal projectId (i + 1)

/-- C2 counterexample: a proposal with `milestones_qty = 3` whose
snapshot list covers only milestone 2 yields exactly one entry (for
milestone 2) — no entry for milestone index 1 is synthesized, so the
per-index coverage the claim states fails on a successfully processed
project. -/
theorem claim_C2_counterexample :
    ({ title := "P", budget := 300, milestones_qty := 3, funds_distributed := none,
        project_id := "77" } : Proposal).milestones_qty = 3
    ∧ (processMilestones
        { title := "P", budget := 300, milestones_qty := 3, funds_distributed := none,
          project_id := "77" } "77" [⟨2, none, none⟩] (fun _ => [])).map
        MilestoneEntry.milestone = [2]
    ∧ ¬ ∃ e ∈ processMilestones
        { title := "P", budget := 300, milestones_qty := 3, funds_distributed := none,
          project_id := "77" } "77" [⟨2, none, none⟩] (fun _ => []),
        e.milestone = 1 := by
  refine ⟨rfl, rfl, ?_⟩
  rintro ⟨e, he, h1⟩
  rcases List.mem_map.1 (by exact he) with ⟨snap, hsnap, rfl⟩
  rcases List.mem_singleton.1 hsnap with rfl
  cases h1

/-- C2 (amended): when a project has no snapshot records, the result
contains exactly one synthesized milestone entry for every index from 1
to `milestones_qty`, with zero/false defaults and cost equal to the
rounded even split `budget / milestones_qty`; when snapshots exist, the
result has exactly one entry per snapshot (so indices without a snapshot
receive no entry, and entries whose review lookup is empty fall back to
the same defaults for the review-derived fields). -/
theorem claim_C2_default_synthesis (proposal : Proposal) (projectId : String)
    (mstData : ℕ → List Som) :
    ((processMilestones proposal projectId [] mstData).map MilestoneEntry.milestone
      = (List.range proposal.milestones_qty).map (· + 1))
    ∧ (∀ e ∈ processMilestones proposal projectId [] mstData,
        e.completion = 0 ∧ e.cost = evenCostSplit proposal
        ∧ e.outputs_approved = false ∧ e.success_criteria_approved = false
        ∧ e.evidence_approved = false ∧ e.poa_content_approved = false
        ∧ e.som_signoff_count = 0 ∧ e.poa_signoff_count = 0)
    ∧ (∀ snaps : List Snapshot, snaps ≠ [] →
        (processMilestones proposal projectId snaps mstData).map MilestoneEntry.milestone
          = snaps.map Snapshot.milestone) := by
  refine ⟨?_, ?_, ?_⟩
  · simp [processMilestones, defaultMilestoneEntry]
  · intro e he
    simp only [processMilestones, List.length_nil, gt_iff_lt, lt_irrefl, if_false] at he
    rcases List.mem_map.1 he with ⟨i, _, rfl⟩
    exact ⟨rfl, rfl, rfl, rfl, rfl, rfl, rfl, rfl⟩
  · intro snaps hne
    have hlen : snaps.length > 0 := List.length_pos.2 hne
    simp only [processMilestones, if_pos hlen, List.map_map]
    apply List.map_congr_left
    intro snap _
    rfl

/-- C2 witness: a 4-milestone proposal with no snapshots gets entries for
exactly the indices 1..4; a snapshot list covering only milestone 5 gets
exactly that entry. -/
theorem claim_C2_witness :
    ((processMilestones
        { title := "Q", budget := 400, milestones_qty := 4, funds_distributed := none,
          project_id := "88" } "88" [] (fun _ => [])).map MilestoneEntry.milestone
      = (List.range 4).map (· + 1))
    ∧ (processMilestones
        { title := "Q", budget := 400, milestones_qty := 4, funds_distributed := none,
          project_id := "88" } "88" [⟨5, none, none⟩] (fun _ => [])).map
        MilestoneEntry.milestone = [5] :=
  ⟨(claim_C2_default_synthesis
      { title := "Q", budget := 400, milestones_qty := 4, funds_distributed := none,
        project_id := "88" } "88" (fun _ => [])).1,
   (claim_C2_default_synthesis
      { title := "Q", budget := 400, milestones_qty := 4, funds_distributed := none,
        project_id := "88" } "88" (fun _ => [])).2.2 [⟨5, none, none⟩] (by decide)⟩

/-! ## Exchange rate and global rollup (`fetchAdaExchangeRate` lines 40-51,
`main` lines 494-537) -/

/-- The `ADAUSD` ticker with `parseFloat(...c[0])` already applied. -/
structure KrakenTicker where
  c0 : ℚ
deriving DecidableEq

structure KrakenResult where
  ADAUSD : Option KrakenTicker
deriving DecidableEq

structure KrakenResp where
  result : Option KrakenResult
deriving DecidableEq

/-- Function `fetchAdaExchangeRate` (lines 40-51): the ticker value when present,
0 on a missing `result`/`ADAUSD` and 0 on a request failure. -/
def fetchAdaExchangeRate (response : Except Unit KrakenResp) : ℚ :=
  match response with
  | .error _ => 0
  | .ok r =>
    match r.result with
    | some res =>
      match res.ADAUSD with
      | some t => t.c0
      | none => 0
    | none => 0

/-- Lines 521-522: `rate > 0 ? Math.round(balance / rate) : 0`, with
`Math.round` = `⌊x + 1/2⌋` = Mathlib's `round`. -/
def monthsRunway (walletBalanceAda monthlyBudget : ℚ) : ℤ :=
  if monthlyBudget > 0 then round (walletBalanceAda / monthlyBudget) else 0

/-- Expression `Number(x.toFixed(2))` (lines 517-518), idealized to exact decimal
rounding of the rational value. -/
def roundTo2 (x : ℚ) : ℚ := ((round (x * 100) : ℤ) : ℚ) / 100

/-- One `globalSettings.organizations` entry (line 510). -/
structure Organization where
  name : String
  realMonthlyBudget : ℚ
  maxMonthlyBudget : ℚ
  wallet : String
deriving DecidableEq

/-- Heterogeneous CSV cell values, stringified only at write time. -/
inductive Cell where
  | str (s : String)
  | num (q : ℚ)
  | bool (b : Bool)
deriving DecidableEq

/-- One `globalFinancialsForSheet` row (lines 524-536). -/
def orgRow (totalBudgetAll totalReceivedAll adaUsdRate walletBalanceAda : ℚ)
    (org : Organization) : List Cell :=
  [ .str "ALL", .str org.name, .num totalBudgetAll,
    .num org.realMonthlyBudget,
    .num ((monthsRunway walletBalanceAda org.realMonthlyBudget : ℤ) : ℚ),
    .num org.maxMonthlyBudget,
    .num ((monthsRunway walletBalanceAda org.maxMonthlyBudget : ℤ) : ℚ),
    .num totalReceivedAll, .num (totalBudgetAll - totalReceivedAll),
    .num (roundTo2 walletBalanceAda),
    .num (roundTo2 (walletBalanceAda * adaUsdRate)) ]

/-- The per-organization rollup loop (lines 508-537); `balanceOf` stands
for the awaited `fetchWalletBalance` result per organization wallet. -/
def globalFinancialsForSheet (orgs : List Organization) (balanceOf : String → ℚ)
    (totalBudgetAll totalReceivedAll adaUsdRate : ℚ) : List (List Cell) :=
  orgs.map fun org =>
    orgRow totalBudgetAll totalReceivedAll adaUsdRate (balanceOf org.wallet) org

/-- C8: each organization's estimated runway is `balance / rate` rounded
to the nearest whole month when the monthly rate is positive and 0 when
the rate is ≤ 0; and a failed exchange-rate lookup yields rate 0 and the
global rollup is still fully computed — identically to a rollup run with
rate 0. -/
theorem claim_C8_runway_and_rate_degradation (balance rate : ℚ) :
    (rate > 0 → monthsRunway balance rate = round (balance / rate))
    ∧ (rate ≤ 0 → monthsRunway balance rate = 0)
    ∧ (∀ (e : Unit), fetchAdaExchangeRate (.error e) = 0)
    ∧ (∀ (e : Unit) (orgs : List Organization) (balanceOf : String → ℚ) (tb tr : ℚ),
        globalFinancialsForSheet orgs balanceOf tb tr (fetchAdaExchangeRate (.error e))
          = globalFinancialsForSheet orgs balanceOf tb tr 0) := by
  refine ⟨?_, ?_, ?_, ?_⟩
  · intro hpos
    unfold monthsRunway
    rw [if_pos hpos]
  · intro hle
    unfold monthsRunway
    rw [if_neg (not_lt.2 hle)]
  · intro e; rfl
  · intro e orgs balanceOf tb tr; rfl

/-- C8 witness: instantiated at a positive and a non-positive rate. -/
theorem claim_C8_witness :
    monthsRunway 100 8 = round ((100 : ℚ) / 8) ∧ monthsRunway 100 0 = 0 :=
  ⟨(claim_C8_runway_and_rate_degradation 100 8).1 (by decide),
   (claim_C8_runway_and_rate_degradation 100 0).2.1 (by decide)⟩

/-! ## Per-project processing and the driver loop
(`processProject` lines 281-433, `main` lines 460-645) -/

/-- Row-tuple builders (lines 366-415). -/
def milestoneRow (m : MilestoneEntry) : List Cell :=
  [ .str m.title, .str m.project_id, .num m.milestone, .num m.month, .num m.cost,
    .num m.completion, .num m.budget, .num m.funds_distributed, .num m.milestones_qty,
    .num m.som_signoff_count, .num m.poa_signoff_count,
    .bool m.outputs_approved, .bool m.success_criteria_approved,
    .bool m.evidence_approved, .bool m.poa_content_approved ]

/-- Lines 385-392; the date cell carries the raw timestamp (see
`ProcessedTx.date`). -/
def transactionRow (projectId title : String) (tx : ProcessedTx) : List Cell :=
  [ .str projectId, .str title, .str tx.txHash, .num (tx.date : ℚ),
    .num tx.amount, .str tx.metadata ]

/-- Lines 395-402. -/
def collaboratorRow (projectId title : String) (totalBudget organizationFunds : ℚ)
    (c : CollabAlloc) : List Cell :=
  [ .str projectId, .str title, .num totalBudget, .str c.name,
    .num c.totalAmount, .num organizationFunds ]

/-- Lines 405-415. -/
def proposalRow (proposal : Proposal) (projectId : String) (remaining : ℚ) : List Cell :=
  [ .str proposal.project_id, .str proposal.title, .num proposal.budget,
    .num (proposal.funds_distributed.getD 0), .num remaining,
    .num proposal.milestones_qty, .str (milestonesLink projectId) ]

/-- The external world as `processProject` sees it: per-project backend
proposal lookup, snapshot RPC (already degraded to `[]` on failure),
per-milestone review query, and indexer transaction history. -/
structure ProjectEnv where
  proposalOf : String → Option Proposal
  snapshotsOf : String → List Snapshot
  mstDataOf : String → ℕ → List Som
  txsOf : String → List RawTx

/-- The aggregate object returned by `processProject` (lines 418-428). -/
structure ProjectData where
  projectId : String
  milestones : List MilestoneEntry
  transactions : List ProcessedTx
  financials : Financials
  milestonesForSheet : List (List Cell)
  transactionsForSheet : List (List Cell)
  proposalForSheet : List (List Cell)
  collaboratorsForSheet : List (List Cell)
deriving DecidableEq

/-- Function `processProject(projectId)` (lines 281-433): every `throw` becomes an
`Except.error` — missing config entry, empty wallet, missing proposal,
and the collaborator-reduce `TypeError` (see `calculateMonthlyBudget`). -/
def processProject (cfg : List ProjectConfig) (env : ProjectEnv) (today : DateYM)
    (projectId : String) : Except String ProjectData :=
  match cfg.find? (fun p => p.project_id == projectId) with
  | none => .error "not found in configuration"
  | some projectConfig =>
    if projectConfig.wallet = "" then .error "no wallet address"
    else
      match env.proposalOf projectId with
      | none => .error "no proposal found"
      | some proposal =>
        match calculateMonthlyBudget proposal projectConfig today with
        | none => .error "TypeError in collaborator reduce"
        | some financials =>
          let transactions := processWalletTransactions projectConfig.wallet (env.txsOf projectId)
          let milestones := processMilestones proposal projectId
            (env.snapshotsOf projectId) (env.mstDataOf projectId)
          .ok
            { projectId := projectId
              milestones := milestones
              transactions := transactions
              financials := financials
              milestonesForSheet := milestones.map milestoneRow
              transactionsForSheet := transactions.map (transactionRow projectId proposal.title)
              proposalForSheet :=
                [proposalRow proposal projectId (remainingFunds proposal.budget transactions)]
              collaboratorsForSheet := financials.collaboratorAllocations.map
                (collaboratorRow projectId proposal.title financials.totalBudget
                  financials.organizationFunds) }

/-- The accumulated CSV row groups of `main` (lines 470-484). -/
structure SheetAccum where
  allMilestones : List (List Cell)
  allTransactions : List (List Cell)
  allProposals : List (List Cell)
  allCollaborators : List (List Cell)
deriving DecidableEq

/-- One iteration of the project loop (lines 476-492): a successful
project appends its rows; a failure is caught at the loop boundary and
leaves the accumulators untouched. -/
def accumStep (cfg : List ProjectConfig) (env : ProjectEnv) (today : DateYM)
    (acc : SheetAccum) (projectId : String) : SheetAccum :=
  match processProject cfg env today projectId with
  | .error _ => acc
  | .ok pd =>
    { allMilestones := acc.allMilestones ++ pd.milestonesForSheet
      allTransactions := acc.allTransactions ++ pd.transactionsForSheet
      allProposals := acc.allProposals ++ pd.proposalForSheet
      allCollaborators := acc.allCollaborators ++ pd.collaboratorsForSheet }

def accumIds (cfg : List ProjectConfig) (env : ProjectEnv) (today : DateYM)
    (ids : List String) : SheetAccum :=
  ids.foldl (accumStep cfg env today) ⟨[], [], [], []⟩

/-- The loop of `main` over `projectsConfig.projects.map(p => p.project_id)`. -/
def mainAccum (cfg : List ProjectConfig) (env : ProjectEnv) (today : DateYM) : SheetAccum :=
  accumIds cfg env today (cfg.map ProjectConfig.project_id)

/-- Exit code of `main` (lines 463-466, 608-612, 640-645): 1 when the
configuration has no projects, 1 when a table write fails, 0 otherwise —
independent of per-project failures. -/
def mainExitCode (cfg : List ProjectConfig) (writesOk : Bool) : ℕ :=
  if cfg.length = 0 then 1 else if writesOk then 0 else 1

/-- A three-project configuration whose middle project has no matching
backend proposal record. -/
def cfgThree : List ProjectConfig :=
  [ { project_id := "1", wallet := "w1"
      dateRanges := some ⟨some ⟨2024, 0⟩, some ⟨2025, 0⟩⟩, collaborators := none },
    { project_id := "2", wallet := "w2"
      dateRanges := some ⟨some ⟨2024, 0⟩, some ⟨2025, 0⟩⟩, collaborators := none },
    { project_id := "3", wallet := "w3"
      dateRanges := some ⟨some ⟨2024, 0⟩, some ⟨2025, 0⟩⟩, collaborators := none } ]

def envThree : ProjectEnv :=
  { proposalOf := fun pid =>
      if pid = "1" then
        some { title := "A", budget := 100, milestones_qty := 1
               funds_distributed := none, project_id := "1" }
      else if pid = "3" then
        some { title := "C", budget := 200, milestones_qty := 2
               funds_distributed := none, project_id := "3" }
      else none
    snapshotsOf := fun _ => []
    mstDataOf := fun _ _ => []
    txsOf := fun _ => [] }

/-- C6: a failure while processing one project is absorbed at the loop
boundary — removing the failing id from the processed list leaves the
accumulated tables unchanged — and in the concrete 3-project run whose
middle project lacks a backend proposal, the accumulated tables equal
those of the two good projects alone (one proposal row each) while the
process still exits 0 when the table writes succeed. -/
theorem claim_C6_loop_failure_isolation :
    (∀ (cfg : List ProjectConfig) (env : ProjectEnv) (today : DateYM)
        (pre post : List String) (badId e : String),
        processProject cfg env today badId = .error e →
        accumIds cfg env today (pre ++ badId :: post) = accumIds cfg env today (pre ++ post))
    ∧ processProject cfgThree envThree ⟨2024, 0⟩ "2" = .error "no proposal found"
    ∧ mainAccum cfgThree envThree ⟨2024, 0⟩ = accumIds cfgThree envThree ⟨2024, 0⟩ ["1", "3"]
    ∧ (mainAccum cfgThree envThree ⟨2024, 0⟩).allProposals.length = 2
    ∧ mainExitCode cfgThree true = 0 := by
  refine ⟨?_, rfl, rfl, rfl, rfl⟩
  intro cfg env today pre post badId e h
  unfold accumIds
  rw [List.foldl_append, List.foldl_cons, List.foldl_append]
  congr 1
  show accumStep cfg env today _ badId = _
  unfold accumStep
  rw [h]

/-- C6 witness: the loop-isolation equation instantiated on the concrete
3-project run, with the failure hypothesis discharged there. -/
theorem claim_C6_witness :
    accumIds cfgThree envThree ⟨2024, 0⟩ (["1"] ++ "2" :: ["3"])
      = accumIds cfgThree envThree ⟨2024, 0⟩ (["1"] ++ ["3"]) :=
  claim_C6_loop_failure_isolation.1 cfgThree envThree ⟨2024, 0⟩ ["1"] ["3"] "2"
    "no proposal found" claim_C6_loop_failure_isolation.2.1

end ProposalTracker
